import Mathlib

/-!
Shallow embedding of the vkhitev/vkhitev-web site sources.

The repository is a Docusaurus site; its own code is a handful of React
presentational components and a static configuration object.  We embed the
virtual-DOM trees those components return as an inductive `Node` type:
`element` for host HTML tags, `component` for externally provided React
components (`Layout`, `Link`, required SVG modules), and `text` for text
children.  Each source component becomes a Lean function returning a `Node`.
-/

inductive Node where
  | text (s : String)
  | element (tag : String) (attrs : List (String × String)) (children : List Node)
  | component (nm : String) (attrs : List (String × String)) (children : List Node)

/-- The `clsx` helper from the `clsx` package as the components use it: it
joins the class strings it is given with single spaces, skipping falsy
(empty) entries. -/
def clsx (xs : List String) : String :=
  String.intercalate " " (xs.filter (fun s => s ≠ ""))

mutual

/-- Number of host elements with the given tag in a tree. -/
def countTag (t : String) : Node → Nat
  | Node.text _ => 0
  | Node.element tg _ cs => (if tg = t then 1 else 0) + countTagList t cs
  | Node.component _ _ cs => countTagList t cs

def countTagList (t : String) : List Node → Nat
  | [] => 0
  | c :: cs => countTag t c + countTagList t cs

end

mutual

/-- Number of external components with the given name in a tree. -/
def countComponent (t : String) : Node → Nat
  | Node.text _ => 0
  | Node.element _ _ cs => countComponentList t cs
  | Node.component nm _ cs => (if nm = t then 1 else 0) + countComponentList t cs

def countComponentList (t : String) : List Node → Nat
  | [] => 0
  | c :: cs => countComponent t c + countComponentList t cs

end

mutual

/-- All text leaves of a tree, in document order. -/
def texts : Node → List String
  | Node.text s => [s]
  | Node.element _ _ cs => textsList cs
  | Node.component _ _ cs => textsList cs

def textsList : List Node → List String
  | [] => []
  | c :: cs => texts c ++ textsList cs

end

mutual

/-- All host elements with the given tag, in document order. -/
def findTag (t : String) : Node → List Node
  | Node.text _ => []
  | Node.element tg attrs cs =>
      (if tg = t then [Node.element tg attrs cs] else []) ++ findTagList t cs
  | Node.component _ _ cs => findTagList t cs

def findTagList (t : String) : List Node → List Node
  | [] => []
  | c :: cs => findTag t c ++ findTagList t cs

end

/-!
CSS modules.  `HomepageFeatures.module.css` and `index.module.css` are not
part of the source tree handed to us; at build time each exported class name
is replaced by a generated class string.  We model each module as constants
mapping the names the components use to opaque class strings (the value never
matters for any property below, only that each name denotes one fixed
string shared by everything that imports it). -/

/-- Class string for `styles.features` of `HomepageFeatures.module.css`. -/
def stylesFeatures : String := "features"

/-- Class string for `styles.featureSvg` of `HomepageFeatures.module.css`. -/
def stylesFeatureSvg : String := "featureSvg"

/-- Class string for `styles.heroBanner` of `index.module.css`. -/
def stylesHeroBanner : String := "heroBanner"

/-- Class string for `styles.avatar` of `index.module.css`. -/
def stylesAvatar : String := "avatar"

/-- Class string for `styles.buttons` of `index.module.css`. -/
def stylesButtons : String := "buttons"

/-!
src/components/HomepageFeatures.tsx (the final revision of the feature
grid component).
-/

/-- The `FeatureItem` record type of `HomepageFeatures.tsx`.  The
`description` field there is a JSX fragment holding only text; we embed it
as that text. -/
structure FeatureItem where
  title : String
  image : String
  description : String

/-- Field table of the TypeScript type literal
`type FeatureItem = \x7b title: string; image: string; description: JSX.Element \x7d`:
each declared field name paired with whether the source marks it optional
(a `?` after the field name).  None of the three fields carries a `?`. -/
def featureItemFields : List (String × Bool) :=
  [("title", false), ("image", false), ("description", false)]

/-- Whether the named field of `FeatureItem` is declared optional, `none`
if the type has no such field. -/
def featureItemFieldOptional (f : String) : Option Bool :=
  (featureItemFields.lookup f)

/-- The description fragment every entry of the feature list carries. -/
def loremText : String :=
  "Lorem ipsum dolor sit amet, consectetur adipiscing elit, sed do eiusmod tempor incididunt ut labore et dolore magna aliqua."

/-- The `FeatureList` constant of `HomepageFeatures.tsx`: nine hardcoded
entries. -/
def FeatureList : List FeatureItem :=
  [ { title := "Software development", image := "/img/undraw_programming.svg", description := loremText },
    { title := "Music", image := "/img/undraw_compose_music.svg", description := loremText },
    { title := "Sport", image := "/img/undraw_healthy_habit.svg", description := loremText },
    { title := "Traveling", image := "/img/undraw_adventure.svg", description := loremText },
    { title := "Mathematics", image := "/img/undraw_mathematics.svg", description := loremText },
    { title := "Healthy lifestyle", image := "/img/undraw_meditation.svg", description := loremText },
    { title := "Reading", image := "/img/undraw_book_lover.svg", description := loremText },
    { title := "Writing", image := "/img/undraw_typewriter.svg", description := loremText },
    { title := "Teaching", image := "/img/undraw_teaching.svg", description := loremText } ]

/-- The `Feature` component of `HomepageFeatures.tsx`: one grid cell. -/
def Feature (f : FeatureItem) : Node :=
  Node.element "div" [("className", clsx ["col col--4"])]
    [ Node.element "div" [("className", "text--center")]
        [ Node.element "img"
            [("className", stylesFeatureSvg), ("alt", f.title), ("src", f.image)] [] ],
      Node.element "div" [("className", "text--center padding-horiz--md")]
        [ Node.element "h3" [] [Node.text f.title],
          Node.element "p" [] [Node.text f.description] ] ]

/-- The default export `HomepageFeatures` of `HomepageFeatures.tsx`: a
section wrapping a container, a row, and one `Feature` cell per entry of
`FeatureList`, in list order (the `key=\x7bidx\x7d` prop is a React
reconciliation hint and produces no output). -/
def HomepageFeatures : Node :=
  Node.element "section" [("className", stylesFeatures)]
    [ Node.element "div" [("className", "container")]
        [ Node.element "div" [("className", "row")]
            (FeatureList.map Feature) ] ]

/-!
src/unnamed/part_000: the earlier revision of the same component.  Its
entries carry a `Svg` field (the default export of a required SVG module,
embedded as the module path) instead of an `image` path, and are untyped. -/

/-- Shape of an entry of the older revision's feature list. -/
structure FeatureItemOld where
  title : String
  Svg : String
  description : String

/-- The `FeatureList` constant of the older revision. -/
def FeatureListOld : List FeatureItemOld :=
  [ { title := "Software development", Svg := "../../static/img/undraw_programming.svg", description := loremText },
    { title := "Music", Svg := "../../static/img/undraw_compose_music.svg", description := loremText },
    { title := "Sport", Svg := "../../static/img/undraw_healthy_habit.svg", description := loremText },
    { title := "Traveling", Svg := "../../static/img/undraw_adventure.svg", description := loremText },
    { title := "Mathematics", Svg := "../../static/img/undraw_mathematics.svg", description := loremText },
    { title := "Healthy lifestyle", Svg := "../../static/img/undraw_meditation.svg", description := loremText },
    { title := "Reading", Svg := "../../static/img/undraw_book_lover.svg", description := loremText },
    { title := "Writing", Svg := "../../static/img/undraw_typewriter.svg", description := loremText },
    { title := "Teaching", Svg := "../../static/img/undraw_teaching.svg", description := loremText } ]

/-- The `Feature` component of the older revision: same cell layout, but the
image is rendered by the imported SVG component rather than an `img` tag. -/
def FeatureOld (f : FeatureItemOld) : Node :=
  Node.element "div" [("className", clsx ["col col--4"])]
    [ Node.element "div" [("className", "text--center")]
        [ Node.component f.Svg [("className", stylesFeatureSvg), ("alt", f.title)] [] ],
      Node.element "div" [("className", "text--center padding-horiz--md")]
        [ Node.element "h3" [] [Node.text f.title],
          Node.element "p" [] [Node.text f.description] ] ]

/-- The default export `HomepageFeatures` of the older revision. -/
def HomepageFeaturesOld : Node :=
  Node.element "section" [("className", stylesFeatures)]
    [ Node.element "div" [("className", "container")]
        [ Node.element "div" [("className", "row")]
            (FeatureListOld.map FeatureOld) ] ]


/-!
docusaurus.config.js: the static site configuration.  The copyright line
interpolates the build-time year, so it is embedded as a function of that
year rather than a constant. -/

/-- One navbar item (label, target route or URL, position). -/
structure NavbarItem where
  label : String
  target : String
  position : String

/-- One footer link (label, target route or URL). -/
structure FooterLink where
  label : String
  target : String

/-- One titled footer link group. -/
structure FooterGroup where
  title : String
  items : List FooterLink

/-- The shape of the exported configuration object. -/
structure SiteConfig where
  title : String
  tagline : String
  url : String
  baseUrl : String
  onBrokenLinks : String
  onBrokenMarkdownLinks : String
  onDuplicateRoutes : String
  favicon : String
  organizationName : String
  projectName : String
  navbarTitle : String
  navbarItems : List NavbarItem
  footerStyle : String
  footerGroups : List FooterGroup

/-- The `module.exports` object of `docusaurus.config.js`. -/
def siteConfig : SiteConfig :=
  { title := "Vlad Khitev"
    tagline := "Software Engineer | Head of Front-End Chapter at Axon"
    url := "https://vkhitev.vercel.app"
    baseUrl := "/"
    onBrokenLinks := "throw"
    onBrokenMarkdownLinks := "throw"
    onDuplicateRoutes := "throw"
    favicon := "img/logo.svg"
    organizationName := "vkhitev"
    projectName := "vkhitev-web"
    navbarTitle := "Vlad Khitev"
    navbarItems :=
      [ { label := "Tutorial", target := "intro", position := "left" },
        { label := "Blog", target := "blog", position := "left" },
        { label := "GitHub", target := "https://github.com/vkhitev/vkhitev-web", position := "right" } ]
    footerStyle := "dark"
    footerGroups :=
      [ { title := "Links",
          items := [ { label := "Blog", target := "/blog" },
                     { label := "About", target := "/about" },
                     { label := "Contact", target := "/docs/intro" } ] },
        { title := "Professional",
          items := [ { label := "LinkedIn", target := "https://www.linkedin.com/in/vlad-khitev" },
                     { label := "GitHub", target := "https://github.com/vkhitev" } ] },
        { title := "Media",
          items := [ { label := "Instagram", target := "https://www.instagram.com/vkhitev" },
                     { label := "Facebook", target := "https://www.facebook.com/profile.php?id=100011326866860" },
                     { label := "Twitter", target := "https://twitter.com/vkhitev" } ] } ]
  }

/-- The footer copyright string, a function of the build-time year
(`new Date().getFullYear()`). -/
def footerCopyright (year : Nat) : String :=
  "Copyright © " ++ toString year ++ " Vlad Khitev"

/-!
src/pages/index.tsx (the final revision of the Home page).
`useDocusaurusContext` supplies the ambient site configuration; we embed it
as an explicit argument. -/

/-- The avatar photo URL hardcoded in `HomepageHeader`. -/
def avatarPhotoUrl : String :=
  "https://media-exp1.licdn.com/dms/image/C4E03AQFIJTYzBY7xfg/profile-displayphoto-shrink_800_800/0/1599642100884?e=1638403200&v=beta&t=V7zG5-Hxt4BT55LmuXmzmWtDu_P_psjt-YdY8UgOc64"

/-- The `HomepageHeader` component of `index.tsx`: hero banner with the
avatar, the configured title and tagline, and two `Link` buttons. -/
def HomepageHeader (cfg : SiteConfig) : Node :=
  Node.element "header" [("className", clsx ["hero hero--primary", stylesHeroBanner])]
    [ Node.element "div" [("className", "container")]
        [ Node.element "div" [("className", "avatar avatar--vertical margin-bottom--md")]
            [ Node.element "img"
                [("className", clsx ["avatar__photo avatar__photo--xl", stylesAvatar]),
                 ("src", avatarPhotoUrl), ("alt", "")] [] ],
          Node.element "h1" [("className", "hero__title")] [Node.text cfg.title],
          Node.element "p" [("className", "hero__subtitle")] [Node.text cfg.tagline],
          Node.element "div" [("className", stylesButtons)]
            [ Node.component "Link"
                [("className", "button button--lg button--outline"), ("to", "/docs/intro")]
                [Node.text "Blog"],
              Node.component "Link"
                [("className", "button button--lg button--outline"), ("to", "/about")]
                [Node.text "About"] ] ] ]

/-- The default export `Home` of `index.tsx`: the theme `Layout` wrapping
the hero header and a `main` holding the feature grid. -/
def Home (cfg : SiteConfig) : Node :=
  Node.component "Layout" []
    [ HomepageHeader cfg,
      Node.element "main" [] [HomepageFeatures] ]

/-!
src/pages/about.tsx: the About page. -/

/-- The inline style object of the About page's wrapper div. -/
def aboutStyle : List (String × String) :=
  [("display", "flex"), ("justifyContent", "center"), ("alignItems", "center"),
   ("height", "50vh"), ("fontSize", "20px")]

/-- Serialisation of an inline style object into a style attribute value. -/
def styleAttr (ps : List (String × String)) : String :=
  String.intercalate ";" (ps.map (fun p => p.1 ++ ":" ++ p.2))

/-- The `About` page component of `about.tsx`. -/
def About : Node :=
  Node.component "Layout" [("title", "Hello")]
    [ Node.element "div" [("style", styleAttr aboutStyle)]
        [ Node.element "p" [] [Node.text "Hello, I\x27m Vlad."] ] ]

/-!
State-passing view of rendering.  The module-level constants (`FeatureList`,
the exported configuration) live in a world; each page render is embedded as
a state transformer returning the rendered tree together with the world it
leaves behind.  The source components only ever read these constants, so
each transformer's body mirrors the component body with its reads made
explicit. -/

/-- The static data the components read: the feature-list constant and the
site configuration. -/
structure World where
  featureList : List FeatureItem
  config : SiteConfig

/-- The world as built: the hardcoded `FeatureList` and the exported
configuration. -/
def initialWorld : World :=
  { featureList := FeatureList, config := siteConfig }

/-- `HomepageFeatures` as a state transformer: reads the feature-list
constant, maps `Feature` over it, writes nothing. -/
def homepageFeaturesRun (w : World) : Node × World :=
  (Node.element "section" [("className", stylesFeatures)]
    [ Node.element "div" [("className", "container")]
        [ Node.element "div" [("className", "row")]
            (w.featureList.map Feature) ] ], w)

/-- `HomepageHeader` as a state transformer: reads the site configuration
(via `useDocusaurusContext`), writes nothing. -/
def homepageHeaderRun (w : World) : Node × World :=
  (HomepageHeader w.config, w)

/-- `Home` as a state transformer: renders the header, then the feature
grid, threading the world through both. -/
def homeRun (w : World) : Node × World :=
  let hdr := homepageHeaderRun w
  let grid := homepageFeaturesRun hdr.2
  (Node.component "Layout" []
    [ hdr.1, Node.element "main" [] [grid.1] ], grid.2)

/-- `About` as a state transformer: reads nothing, writes nothing. -/
def aboutRun (w : World) : Node × World :=
  (About, w)

/-!
Inspection helpers for grids and cells. -/

/-- The cells of a feature grid: the children of the row inside the
container inside the section. -/
def gridCells : Node → List Node
  | Node.element _ _ [Node.element _ _ [Node.element _ _ cells]] => cells
  | _ => []

/-- The `className` attribute of a cell's root element. -/
def cellClassName : Node → Option String
  | Node.element _ attrs _ => attrs.lookup "className"
  | _ => none

/-- The `className` attributes of a cell's immediate child divs. -/
def cellInnerClasses : Node → List String
  | Node.element _ _ cs => cs.filterMap (fun c => cellClassName c)
  | _ => []

/-- The text of the unique `h3` of a cell, if there is one. -/
def cellTitle (c : Node) : Option String :=
  match findTag "h3" c with
  | [Node.element _ _ [Node.text t]] => some t
  | _ => none

/-- Whether a cell displays the given entry: its unique `img` carries the
entry's title as `alt` and the entry's image path as `src`, and its `h3`
shows the entry's title. -/
def cellShowsEntry (c : Node) (f : FeatureItem) : Bool :=
  match findTag "img" c, findTag "h3" c with
  | [Node.element _ attrs _], [Node.element _ _ [Node.text t]] =>
      (attrs.lookup "alt" == some f.title) &&
      (attrs.lookup "src" == some f.image) &&
      (t == f.title)
  | _, _ => false

/-- An alternative configuration differing from the exported one. -/
def altSiteConfig : SiteConfig :=
  { siteConfig with title := "Some other title", tagline := "Some other tagline" }

/-!
Claim theorems. -/

/-- C1: rendering `HomepageFeatures` produces exactly one grid cell per
entry of `FeatureList`, in list order — exactly nine cells — and the cell
for entry `i` displays that entry's title (as the `h3` text and the image
`alt`) and that entry's image path (as the image `src`). -/
theorem homepageFeatures_one_cell_per_entry :
    gridCells HomepageFeatures = FeatureList.map Feature ∧
    (gridCells HomepageFeatures).length = FeatureList.length ∧
    FeatureList.length = 9 ∧
    ∀ i : Fin FeatureList.length,
      cellShowsEntry (Feature (FeatureList.get i)) (FeatureList.get i) = true := by
  refine ⟨rfl, rfl, rfl, ?_⟩
  decide

/-- C2: for any ambient site configuration, `HomepageHeader` (final
revision, `index.tsx`) renders exactly the site title, the site tagline and
the two link labels as its text, contains exactly two `Link` components and
no raw anchor, and is a total function of the configuration alone. -/
theorem homepageHeader_title_tagline_two_links (cfg : SiteConfig) :
    texts (HomepageHeader cfg) = [cfg.title, cfg.tagline, "Blog", "About"] ∧
    countComponent "Link" (HomepageHeader cfg) = 2 ∧
    countTag "a" (HomepageHeader cfg) = 0 :=
  ⟨rfl, rfl, rfl⟩

/-- C3: the About page contains exactly one paragraph, that paragraph holds
the literal text "Hello, I'm Vlad.", and its enclosing div centers it
(flex with centered justification and alignment). -/
theorem about_single_centered_greeting :
    countTag "p" About = 1 ∧
    findTag "p" About = [Node.element "p" [] [Node.text "Hello, I\x27m Vlad."]] ∧
    findTag "div" About =
      [Node.element "div" [("style", styleAttr aboutStyle)]
        [Node.element "p" [] [Node.text "Hello, I\x27m Vlad."]]] ∧
    ("justifyContent", "center") ∈ aboutStyle ∧
    ("alignItems", "center") ∈ aboutStyle := by
  refine ⟨rfl, rfl, rfl, ?_, ?_⟩ <;> decide

/-- C4: rendering the Home page produces exactly one hero header — the
`HomepageHeader` render — and exactly one section — the `HomepageFeatures`
grid — with no additional header or section anywhere in the tree. -/
theorem home_one_header_one_grid (cfg : SiteConfig) :
    countTag "header" (Home cfg) = 1 ∧
    findTag "header" (Home cfg) = [HomepageHeader cfg] ∧
    countTag "section" (Home cfg) = 1 ∧
    findTag "section" (Home cfg) = [HomepageFeatures] :=
  ⟨rfl, rfl, rfl, rfl⟩

/-- C5 (counterexample): the `description` field of the feature entries is
not optional: the `FeatureItem` type declares it without an optional
marker, and every one of the nine `FeatureList` entries supplies a
description (the lorem fragment). -/
theorem featureItem_description_required_cex :
    ¬ featureItemFieldOptional "description" = some true ∧
    featureItemFieldOptional "description" = some false ∧
    FeatureList.all (fun f => f.description == loremText) = true := by
  refine ⟨?_, rfl, ?_⟩ <;> decide

/-- C5 (amended): every entry of the feature list has a title, an image
path and a description; all three fields are declared required (no optional
marker) by the `FeatureItem` type, and every entry supplies a non-empty
value for each. -/
theorem featureList_fields_all_required :
    featureItemFieldOptional "title" = some false ∧
    featureItemFieldOptional "image" = some false ∧
    featureItemFieldOptional "description" = some false ∧
    FeatureList.all
      (fun f => !(f.title == "") && !(f.image == "") && !(f.description == "")) = true := by
  refine ⟨rfl, rfl, rfl, ?_⟩
  decide

/-- C6: every component is a pure render: on equal inputs the renders are
equal trees, and as state transformers the renders return the world they
were given, performing no effect on it. -/
theorem components_pure_renders (cfg cfg' : SiteConfig) (f f' : FeatureItem)
    (w : World) (hc : cfg = cfg') (hf : f = f') :
    (Home cfg = Home cfg' ∧ HomepageHeader cfg = HomepageHeader cfg' ∧
     Feature f = Feature f' ∧ About = About) ∧
    ((homeRun w).2 = w ∧ (aboutRun w).2 = w ∧
     (homepageFeaturesRun w).2 = w ∧ (homepageHeaderRun w).2 = w) := by
  subst hc; subst hf
  exact ⟨⟨rfl, rfl, rfl, rfl⟩, ⟨rfl, rfl, rfl, rfl⟩⟩

/-- Witness for C6, instantiated at the exported configuration, the first
feature entry, and the world as built. -/
theorem components_pure_renders_witness :
    (Home siteConfig = Home siteConfig ∧
     HomepageHeader siteConfig = HomepageHeader siteConfig ∧
     Feature { title := "Software development",
               image := "/img/undraw_programming.svg",
               description := loremText } =
       Feature { title := "Software development",
                 image := "/img/undraw_programming.svg",
                 description := loremText } ∧
     About = About) ∧
    ((homeRun initialWorld).2 = initialWorld ∧
     (aboutRun initialWorld).2 = initialWorld ∧
     (homepageFeaturesRun initialWorld).2 = initialWorld ∧
     (homepageHeaderRun initialWorld).2 = initialWorld) :=
  components_pure_renders siteConfig siteConfig
    { title := "Software development", image := "/img/undraw_programming.svg",
      description := loremText }
    { title := "Software development", image := "/img/undraw_programming.svg",
      description := loremText }
    initialWorld rfl rfl

/-- C7: rendering any page leaves the static data untouched: each render's
resulting world is the world it started from, and at the world as built the
state-passing renders produce exactly the pure renders of the constants. -/
theorem render_preserves_static_data (w : World) :
    (homeRun w).2 = w ∧ (aboutRun w).2 = w ∧
    (homepageFeaturesRun w).2 = w ∧ (homepageHeaderRun w).2 = w ∧
    (homepageFeaturesRun initialWorld).1 = HomepageFeatures ∧
    (homeRun initialWorld).1 = Home siteConfig ∧
    (aboutRun initialWorld).1 = About :=
  ⟨rfl, rfl, rfl, rfl, rfl, rfl, rfl⟩

/-- C8: the site configuration sets all three build validations to fail the
build: broken links, broken markdown links and duplicate routes are each
configured as "throw". -/
theorem siteConfig_failfast_throw :
    siteConfig.onBrokenLinks = "throw" ∧
    siteConfig.onBrokenMarkdownLinks = "throw" ∧
    siteConfig.onDuplicateRoutes = "throw" :=
  ⟨rfl, rfl, rfl⟩

/-- C9: the two revisions of the feature component render equivalent grids:
both produce nine cells, the cells carry the same nine titles in the same
order, and cell-for-cell the layout classes (cell root and its two inner
divs) coincide. -/
theorem feature_revisions_equivalent_grids :
    (gridCells HomepageFeatures).length = 9 ∧
    (gridCells HomepageFeaturesOld).length = 9 ∧
    (gridCells HomepageFeatures).map cellTitle =
      (gridCells HomepageFeaturesOld).map cellTitle ∧
    (gridCells HomepageFeatures).map cellTitle =
      [some "Software development", some "Music", some "Sport", some "Traveling",
       some "Mathematics", some "Healthy lifestyle", some "Reading", some "Writing",
       some "Teaching"] ∧
    (gridCells HomepageFeatures).map cellClassName =
      (gridCells HomepageFeaturesOld).map cellClassName ∧
    (gridCells HomepageFeatures).map cellInnerClasses =
      (gridCells HomepageFeaturesOld).map cellInnerClasses :=
  ⟨rfl, rfl, rfl, rfl, rfl, rfl⟩

/-- C10: the grid rendered by `HomepageFeatures` does not depend on the
site configuration: in any two worlds agreeing on the feature list — the
configurations may differ arbitrarily — the rendered trees are identical. -/
theorem homepageFeatures_config_independent (w₁ w₂ : World)
    (h : w₁.featureList = w₂.featureList) :
    (homepageFeaturesRun w₁).1 = (homepageFeaturesRun w₂).1 := by
  simp only [homepageFeaturesRun, h]

/-- Witness for C10: the world as built against the same feature list under
a different title and tagline. -/
theorem homepageFeatures_config_independent_witness :
    initialWorld.featureList = (World.mk FeatureList altSiteConfig).featureList ∧
    (homepageFeaturesRun initialWorld).1 =
      (homepageFeaturesRun (World.mk FeatureList altSiteConfig)).1 :=
  ⟨rfl, homepageFeatures_config_independent initialWorld
      (World.mk FeatureList altSiteConfig) rfl⟩
